import Mathlib

/-!
Shallow embedding of the RangPic random-image server (`main.go`) and proofs
about its Catalog & Delivery Engine: the tag-aware random selection query
(`chooseRandomImage`), the streaming proxy handler (`randomImageProxyHandler`),
the JSON metadata handler (`randomImageAPIHandler`), and the tag enumeration
handler (`tagsAPIHandler`).

External effects (the PostgreSQL catalog, the outbound HTTP client, the
filesystem) are modelled as explicit inputs: the catalog is a list of records
plus an optional storage-failure message, randomness (`ORDER BY RANDOM()`)
is an external natural-number draw, and the outbound GET is an oracle
function from URL to fetch result.
-/

namespace RangPic

/-- Go struct `Image` (main.go): one catalog record with `id`, `url`
(the record's location: either a remote URL or a `/local/`-marked name),
and `tags`. -/
structure Image where
  id : Int
  url : String
  tags : List String
deriving Repr, DecidableEq

/-- The external catalog database. `images` is the table contents;
`storageFailure = some msg` models the storage layer being unreachable or
the query erroring (every query returns the error `msg`),
`storageFailure = none` models a healthy store. -/
structure Catalog where
  images : List Image
  storageFailure : Option String
deriving Repr, DecidableEq

/-- Errors `chooseRandomImage` can return (main.go lines 199-204):
`pgx.ErrNoRows` is mapped to the fresh error message 没有找到匹配的图片;
any other error (a storage failure) is returned unchanged. -/
inductive ChooseError where
  | noMatch
  | storage (msg : String)
deriving Repr, DecidableEq

/-- The `err.Error()` string of a `ChooseError`, as the handlers pass it to
`http.Error`. -/
def ChooseError.message : ChooseError → String
  | .noMatch => "没有找到匹配的图片"
  | .storage msg => msg

/-- The SQL containment test `tags @> ARRAY[$1]`: the record's tag array
contains an exact (case-sensitive) match for `tagQuery`. -/
def tagMatches (tagQuery : String) (img : Image) : Bool :=
  img.tags.contains tagQuery

/-- The candidate row set of the two SQL queries in `chooseRandomImage`
(main.go lines 192-198): the whole table when `tagQuery` is empty, else the
rows whose `tags` array contains `tagQuery`. -/
def candidates (images : List Image) (tagQuery : String) : List Image :=
  if tagQuery = "" then images else images.filter (tagMatches tagQuery)

/-- `chooseRandomImage` (main.go lines 189-206). `ORDER BY RANDOM() LIMIT 1`
over the candidate set is modelled by an external random draw `k`: the query
returns candidate number `k mod (number of candidates)`, and returns no rows
(`pgx.ErrNoRows`) when the candidate set is empty. A storage failure makes
the query itself error. -/
def chooseRandomImage (db : Catalog) (tagQuery : String) (k : Nat) :
    Except ChooseError Image :=
  match db.storageFailure with
  | some msg => .error (.storage msg)
  | none =>
    match (candidates db.images tagQuery)[k % (candidates db.images tagQuery).length]? with
    | some img => .ok img
    | none => .error .noMatch

/-- Go `r.URL.Query().Get("tag")`: the empty string both when the `tag`
parameter is absent (`none`) and when it is present with an empty value
(`some ""`). -/
def queryGet (tag : Option String) : String :=
  tag.getD ""

/-- Go `strings.HasPrefix s pre`, computed structurally on the character
data so that the kernel can evaluate it. -/
def hasPrefixStr (s pre : String) : Bool :=
  pre.data.isPrefixOf s.data

/-- Go `strings.TrimPrefix s pre`. -/
def trimPrefixStr (s pre : String) : String :=
  if hasPrefixStr s pre then String.mk (s.data.drop pre.data.length) else s

/-- Splits a character list at every slash (helper for Go `path.Clean`). -/
def splitOnSlashAux (cur : List Char) : List Char → List (List Char)
  | [] => [cur.reverse]
  | c :: rest =>
    if c = '/' then cur.reverse :: splitOnSlashAux [] rest
    else splitOnSlashAux (c :: cur) rest

/-- One step of Go `path.Clean`'s element processing, over a reversed
accumulator of output path elements: empty and `.` elements are dropped;
`..` pops the last output element when possible, is dropped at the root of a
rooted path, and is kept otherwise. -/
def cleanStep (rooted : Bool) (acc : List (List Char)) (seg : List Char) :
    List (List Char) :=
  if seg = [] ∨ seg = ['.'] then acc
  else if seg = ['.', '.'] then
    match acc with
    | [] => if rooted then [] else [['.', '.']]
    | top :: rest => if top = ['.', '.'] then seg :: acc else rest
  else seg :: acc

/-- Joins path elements with slashes (helper for Go `path.Clean`). -/
def intercalateSlash : List (List Char) → List Char
  | [] => []
  | [s] => s
  | s :: t :: rest => s ++ '/' :: intercalateSlash (t :: rest)

/-- Go `path.Clean` (equals `filepath.Clean` on unix), the lexical
simplification applied by `filepath.Join`: drops empty and `.` elements,
resolves `..` against preceding elements, and erases `..` at the root of a
rooted path. -/
def goPathClean (path : String) : String :=
  if path = "" then "."
  else
    let rooted := hasPrefixStr path "/"
    let segs := splitOnSlashAux [] path.data
    let out := (segs.foldl (cleanStep rooted) []).reverse
    if rooted then
      if out = [] then "/" else "/" ++ String.mk (intercalateSlash out)
    else
      if out = [] then "." else String.mk (intercalateSlash out)

/-- Go `filepath.Join(a, b)` on unix: join the non-empty elements with a
slash, then `Clean` the result. -/
def filepathJoin (a b : String) : String :=
  if a = "" ∧ b = "" then ""
  else if a = "" then goPathClean b
  else if b = "" then goPathClean a
  else goPathClean (a ++ "/" ++ b)

/-- `const localImagesPath` (main.go line 53): the fixed root directory of
the local blob store. -/
def localImagesPath : String := "/app/local_images"

/-- The file path `randomImageProxyHandler` hands to `http.ServeFile` for a
local record (main.go line 232):
`filepath.Join(localImagesPath, strings.TrimPrefix(url, "/local/"))`. -/
def localResolvedPath (url : String) : String :=
  filepathJoin localImagesPath (trimPrefixStr url "/local/")

/-- Result of the outbound `httpClient.Get(url)`: either a transport error
(connection failure or timeout — Go returns both through `err`), or a
response with a status code, a `Content-Type` header, and a body. -/
inductive FetchResult where
  | connError (msg : String)
  | response (statusCode : Nat) (contentType : String) (body : String)
deriving Repr, DecidableEq

/-- `httpClient = &http.Client{Timeout: 15 * time.Second}`
(main.go line 60). -/
def httpClientTimeoutSeconds : Nat := 15

/-- Observable I/O actions of a handler, in order: one catalog random pick
(`chooseRandomImage` call with its tag filter), or one outbound GET through
`httpClient` with its fixed timeout in seconds. -/
inductive Effect where
  | dbPick (tagQuery : String)
  | outboundGet (url : String) (timeoutSeconds : Nat)
deriving Repr, DecidableEq

/-- Is the effect a catalog random pick? -/
def isDbPick : Effect → Bool
  | .dbPick _ => true
  | _ => false

/-- Is the effect an outbound GET? -/
def isOutboundGet : Effect → Bool
  | .outboundGet _ _ => true
  | _ => false

/-- What `randomImageProxyHandler` sends to the caller: an `http.Error`
response (status plus plain-text message), a delegation to `http.ServeFile`
on a resolved file path, or a streamed 200 response with the headers the
handler set and the relayed body. -/
inductive ProxyOutcome where
  | httpError (status : Nat) (msg : String)
  | serveFile (path : String)
  | stream (headers : List (String × String)) (body : String)
deriving Repr, DecidableEq

/-- The HTTP status of a proxy outcome, when the handler itself determined
it (an `http.ServeFile` delegation's status depends on the filesystem). -/
def proxyStatus : ProxyOutcome → Option Nat
  | .httpError s _ => some s
  | .serveFile _ => none
  | .stream _ _ => some 200

/-- The headers the handler itself set on a proxy outcome. -/
def proxyHeaders : ProxyOutcome → List (String × String)
  | .stream hs _ => hs
  | _ => []

/-- `randomImageProxyHandler` (main.go lines 221-256), returning the response
outcome together with the trace of catalog picks and outbound GETs it
performed. Selection failure → `http.Error(404, err.Error())`; a `/local/`
record → `http.ServeFile` on the joined path; otherwise one outbound GET:
transport error → 500 无法获取图床图片, non-200 upstream status → 502
图床返回错误 with the code, success → stream the body with `Content-Type`
mirrored from upstream and `Cache-Control: no-cache, no-store,
must-revalidate`. -/
def randomImageProxyHandler (db : Catalog) (tag : Option String) (k : Nat)
    (fetch : String → FetchResult) : ProxyOutcome × List Effect :=
  let tagQuery := queryGet tag
  match chooseRandomImage db tagQuery k with
  | .error e => (.httpError 404 e.message, [.dbPick tagQuery])
  | .ok img =>
    if hasPrefixStr img.url "/local/" then
      (.serveFile (localResolvedPath img.url), [.dbPick tagQuery])
    else
      match fetch img.url with
      | .connError _ =>
        (.httpError 500 "无法获取图床图片",
         [.dbPick tagQuery, .outboundGet img.url httpClientTimeoutSeconds])
      | .response code ct body =>
        if code ≠ 200 then
          (.httpError 502 ("图床返回错误: " ++ toString code),
           [.dbPick tagQuery, .outboundGet img.url httpClientTimeoutSeconds])
        else
          (.stream [("Content-Type", ct),
                    ("Cache-Control", "no-cache, no-store, must-revalidate")]
                   body,
           [.dbPick tagQuery, .outboundGet img.url httpClientTimeoutSeconds])

/-- Body of the JSON metadata response: either the JSON-encoded record
(`json.NewEncoder(w).Encode(img)`) or an `http.Error` plain-text message. -/
inductive APIBody where
  | jsonImage (img : Image)
  | errorText (msg : String)
deriving Repr, DecidableEq

/-- An HTTP response of the JSON metadata handler. -/
structure APIResponse where
  status : Nat
  headers : List (String × String)
  body : APIBody
deriving Repr, DecidableEq

/-- `randomImageAPIHandler` (main.go lines 208-219), returning the response
together with its effect trace: selection failure → 404 with the error
message; success → 200 with the JSON-encoded record, `Content-Type:
application/json; charset=utf-8` and `Cache-Control`. -/
def randomImageAPIHandler (db : Catalog) (tag : Option String) (k : Nat) :
    APIResponse × List Effect :=
  let tagQuery := queryGet tag
  match chooseRandomImage db tagQuery k with
  | .error e =>
    ({ status := 404, headers := [], body := .errorText e.message },
     [.dbPick tagQuery])
  | .ok img =>
    ({ status := 200,
       headers := [("Content-Type", "application/json; charset=utf-8"),
                   ("Cache-Control", "no-cache, no-store, must-revalidate")],
       body := .jsonImage img },
     [.dbPick tagQuery])

/-- The string comparison used for `ORDER BY tag`: lexicographic comparison
of the character data (a `C`-collation `ORDER BY`). Stated on `.data`
because the core `String` order is kernel-irreducible; it is the same
lexicographic order. -/
def tagOrder (a b : String) : Prop :=
  a.data ≤ b.data

instance : DecidableRel tagOrder :=
  fun a b => inferInstanceAs (Decidable (a.data ≤ b.data))

instance : IsTotal String tagOrder :=
  ⟨fun a b => le_total a.data b.data⟩

instance : IsTrans String tagOrder :=
  ⟨fun _ _ _ h1 h2 => le_trans h1 h2⟩

/-- The row set of `SELECT DISTINCT unnest(tags) AS tag FROM images ORDER BY
tag` (main.go line 267): the deduplicated union of all records' tag arrays,
sorted ascending. -/
def listDistinctTags (images : List Image) : List String :=
  ((images.flatMap Image.tags).dedup).insertionSort tagOrder

/-- JSON string escaping of `encoding/json` restricted to the backslash and
quote characters (sufficient for tag strings without control characters). -/
def jsonEscape (s : String) : String :=
  String.mk (s.data.flatMap fun c =>
    if c = '\\' then ['\\', '\\']
    else if c = '"' then ['\\', '"']
    else [c])

/-- Go `json.NewEncoder(w).Encode(tags)` for a `[]string` value: a `nil`
slice (modelled as `none`) encodes as `null`, a non-nil slice as a JSON
array. -/
def jsonStringSlice : Option (List String) → String
  | none => "null"
  | some ts =>
    "[" ++ String.intercalate "," (ts.map fun t => "\"" ++ jsonEscape t ++ "\"")
        ++ "]"

/-- One iteration of the row loop in `tagsAPIHandler`: appending to a Go
`[]string` that starts out `nil` — the first append makes it non-nil. -/
def appendTag (acc : Option (List String)) (t : String) : Option (List String) :=
  match acc with
  | none => some [t]
  | some ts => some (ts ++ [t])

/-- An HTTP response of the tags handler, with the JSON body as text. -/
structure TagsResponse where
  status : Nat
  headers : List (String × String)
  body : String
deriving Repr, DecidableEq

/-- `tagsAPIHandler` (main.go lines 266-286): on query failure → 500
无法获取标签列表; otherwise scan the distinct-tag rows into a `[]string`
that starts `nil` and encode it as JSON with status 200. -/
def tagsAPIHandler (db : Catalog) : TagsResponse :=
  match db.storageFailure with
  | some _ =>
    { status := 500, headers := [], body := "无法获取标签列表" }
  | none =>
    let rows := listDistinctTags db.images
    let tags := rows.foldl appendTag none
    { status := 200,
      headers := [("Content-Type", "application/json; charset=utf-8")],
      body := jsonStringSlice tags }

/-- The file extension as computed by Go `filepath.Ext`: scan the reversed
character data of the path for the last dot before any slash. -/
def extSearch (acc : List Char) : List Char → Option (List Char)
  | [] => none
  | c :: rest =>
    if c = '/' then none
    else if c = '.' then some ('.' :: acc)
    else extSearch (c :: acc) rest

/-- Go `filepath.Ext p`: the suffix beginning at the final dot in the final
slash-separated element, or the empty string if there is none. -/
def filepathExt (p : String) : String :=
  match extSearch [] p.data.reverse with
  | some cs => String.mk cs
  | none => ""

/-- Modelled from the Go standard library: `mime.TypeByExtension` restricted
to the builtin image entries relevant here (`net/http`'s `ServeFile` uses it
to pick the `Content-Type` of a served file). -/
def mimeTypeByExtension (ext : String) : Option String :=
  if ext = ".gif" then some "image/gif"
  else if ext = ".jpeg" ∨ ext = ".jpg" then some "image/jpeg"
  else if ext = ".png" then some "image/png"
  else if ext = ".svg" then some "image/svg+xml"
  else if ext = ".webp" then some "image/webp"
  else none

/-- Modelled from the Go standard library: the `Content-Type` chosen by
`http.ServeFile` for a served file — `mime.TypeByExtension` of the file's
extension, falling back to content sniffing (the sniffed result depends on
the file bytes; it is represented here by a placeholder value). -/
def serveFileContentType (path : String) : String :=
  match mimeTypeByExtension (filepathExt path) with
  | some ct => ct
  | none => "application/octet-stream"

/-! Sample inputs shared by several concrete instantiations below. -/

/-- A record whose location is a remote URL. -/
def sampleRemoteImage : Image := ⟨1, "https://x/a.webp", ["mobile"]⟩

/-- A healthy one-record catalog with a remote record. -/
def sampleRemoteDB : Catalog := ⟨[sampleRemoteImage], none⟩

/-- A fetch oracle that always fails at the transport level. -/
def fetchConnError : String → FetchResult :=
  fun _ => .connError "dial tcp: i/o timeout"

/-- A fetch oracle that always succeeds with a webp body. -/
def fetchOkWebp : String → FetchResult :=
  fun _ => .response 200 "image/webp" "WEBPBYTES"

/-- A fetch oracle whose upstream answers 404 with an HTML error page. -/
def fetchUpstream404 : String → FetchResult :=
  fun _ => .response 404 "text/html" "NOPE"

/-! Helper lemmas about `chooseRandomImage`. -/

/-- A storage failure makes every selection fail with that error. -/
theorem chooseRandomImage_storage {db : Catalog} {msg : String}
    (h : db.storageFailure = some msg) (tagQuery : String) (k : Nat) :
    chooseRandomImage db tagQuery k = .error (.storage msg) := by
  simp [chooseRandomImage, h]

/-- A successfully selected record is one of the SQL candidate rows. -/
theorem chooseRandomImage_ok_mem {db : Catalog} {tagQuery : String} {k : Nat}
    {img : Image} (h : chooseRandomImage db tagQuery k = .ok img) :
    img ∈ candidates db.images tagQuery := by
  unfold chooseRandomImage at h
  cases hsf : db.storageFailure with
  | some msg => rw [hsf] at h; exact absurd h (by simp)
  | none =>
    rw [hsf] at h
    cases hget :
        (candidates db.images tagQuery)[k % (candidates db.images tagQuery).length]? with
    | none => rw [hget] at h; exact absurd h (by simp)
    | some img2 =>
      rw [hget] at h
      obtain ⟨hlt, heq⟩ := List.getElem?_eq_some_iff.mp hget
      cases h
      exact heq ▸ List.getElem_mem hlt

/-- An empty candidate set yields the no-match error (`pgx.ErrNoRows`). -/
theorem chooseRandomImage_noMatch {db : Catalog} {tagQuery : String}
    (hsf : db.storageFailure = none) (hc : candidates db.images tagQuery = [])
    (k : Nat) : chooseRandomImage db tagQuery k = .error .noMatch := by
  simp [chooseRandomImage, hsf, hc]

/-- A non-empty candidate set always yields some record. -/
theorem chooseRandomImage_ok_of_ne_nil {db : Catalog} {tagQuery : String}
    (hsf : db.storageFailure = none) (hne : candidates db.images tagQuery ≠ [])
    (k : Nat) : ∃ img, chooseRandomImage db tagQuery k = .ok img := by
  have hlen : 0 < (candidates db.images tagQuery).length := List.length_pos.mpr hne
  have hlt : k % (candidates db.images tagQuery).length <
      (candidates db.images tagQuery).length := Nat.mod_lt k hlen
  refine ⟨(candidates db.images tagQuery)[k % (candidates db.images tagQuery).length], ?_⟩
  simp [chooseRandomImage, hsf, List.getElem?_eq_getElem hlt]

/-- Claim C1 counterexample: with the storage layer failing (a
`StorageError`, not an empty candidate set), both random-image handlers
answer with status 404 — not with the server-error status 500 the claim
asserts. -/
theorem C1_storage_error_counterexample :
    (randomImageProxyHandler ⟨[sampleRemoteImage], some "connection refused"⟩
        none 0 fetchConnError).1 = .httpError 404 "connection refused" ∧
    (randomImageAPIHandler ⟨[sampleRemoteImage], some "connection refused"⟩
        none 0).1.status = 404 ∧
    (404 : Nat) ≠ 500 := by decide

/-- Claim C1 (amended): when the catalog selection fails with a storage
error, `GET /random-image` and `GET /api/random-image` respond with the
same not-found status 404 used for an empty candidate set (carrying the
storage error message as body); storage errors are not mapped to 500. -/
theorem C1_amended_storage_error_maps_to_404
    (db : Catalog) (tag : Option String) (k : Nat)
    (fetch : String → FetchResult) (msg : String)
    (h : db.storageFailure = some msg) :
    (randomImageProxyHandler db tag k fetch).1 = .httpError 404 msg ∧
    (randomImageAPIHandler db tag k).1.status = 404 := by
  have hc := chooseRandomImage_storage h (queryGet tag) k
  constructor
  · simp [randomImageProxyHandler, hc, ChooseError.message]
  · simp [randomImageAPIHandler, hc]

/-- Concrete instantiation of the amended claim C1. -/
theorem C1_amended_storage_error_maps_to_404_witness :
    (randomImageProxyHandler ⟨[], some "db down"⟩ none 0 fetchConnError).1
      = .httpError 404 "db down" ∧
    (randomImageAPIHandler ⟨[], some "db down"⟩ none 0).1.status = 404 :=
  C1_amended_storage_error_maps_to_404 ⟨[], some "db down"⟩ none 0
    fetchConnError "db down" rfl

/-- Claim C2, evaluated at the failing input: for a record whose location is
`/local/../../etc/passwd`, the handler's `filepath.Join` resolution yields
`/etc/passwd` and the handler delegates `http.ServeFile` to that path,
which is outside the root `/app/local_images` — the parent-directory
segments are resolved lexically, not rejected. -/
theorem C2_path_traversal_escapes_root :
    localResolvedPath "/local/../../etc/passwd" = "/etc/passwd" ∧
    (randomImageProxyHandler ⟨[⟨1, "/local/../../etc/passwd", []⟩], none⟩
        none 0 fetchConnError).1 = .serveFile "/etc/passwd" ∧
    ¬ ("/etc/passwd" = localImagesPath ∨
       hasPrefixStr "/etc/passwd" (localImagesPath ++ "/") = true) := by decide

/-- Claim C3: with a non-empty tag filter, `chooseRandomImage` returns only
records whose tag set contains an exact, case-sensitive match for the
filter; and when no record's tag set contains it, selection fails with the
no-match error and both endpoints answer 404. -/
theorem C3_tag_filter_exact_and_404 :
    (∀ (db : Catalog) (t : String) (k : Nat) (img : Image),
      t ≠ "" → chooseRandomImage db t k = .ok img →
      t ∈ img.tags) ∧
    (∀ (db : Catalog) (t : String) (k : Nat) (fetch : String → FetchResult),
      t ≠ "" → db.storageFailure = none →
      (∀ img ∈ db.images, t ∉ img.tags) →
      chooseRandomImage db t k = .error .noMatch ∧
      (randomImageProxyHandler db (some t) k fetch).1
        = .httpError 404 "没有找到匹配的图片" ∧
      (randomImageAPIHandler db (some t) k).1.status = 404) := by
  constructor
  · intro db t k img ht hok
    have hmem := chooseRandomImage_ok_mem hok
    rw [candidates, if_neg ht] at hmem
    simpa [tagMatches] using (List.mem_filter.mp hmem).2
  · intro db t k fetch ht hsf hnone
    have hc : candidates db.images t = [] := by
      rw [candidates, if_neg ht]
      exact List.filter_eq_nil_iff.mpr fun img hm => by
        simpa [tagMatches] using hnone img hm
    have herr := chooseRandomImage_noMatch hsf hc k
    have herr' : chooseRandomImage db (queryGet (some t)) k = .error .noMatch := herr
    refine ⟨herr, ?_, ?_⟩
    · simp [randomImageProxyHandler, herr', ChooseError.message]
    · simp [randomImageAPIHandler, herr']

/-- Concrete instantiation of claim C3: a `mobile`-tagged selection returns
the `mobile` record, and a `desktop` filter over a catalog without that tag
yields the no-match error and 404 on both endpoints. -/
theorem C3_tag_filter_exact_and_404_witness :
    "mobile" ∈ sampleRemoteImage.tags ∧
    (chooseRandomImage sampleRemoteDB "desktop" 0 = .error .noMatch ∧
     (randomImageProxyHandler sampleRemoteDB (some "desktop") 0 fetchConnError).1
       = .httpError 404 "没有找到匹配的图片" ∧
     (randomImageAPIHandler sampleRemoteDB (some "desktop") 0).1.status = 404) :=
  ⟨C3_tag_filter_exact_and_404.1 sampleRemoteDB "mobile" 0 sampleRemoteImage
      (by decide) rfl,
   C3_tag_filter_exact_and_404.2 sampleRemoteDB "desktop" 0 fetchConnError
      (by decide) rfl (by decide)⟩

/-- Claim C4 counterexample: a successful streamed response carries only
`Content-Type` and `Cache-Control` — the handler (main.go lines 250-251)
sets neither `Pragma: no-cache` nor `Expires: 0`. -/
theorem C4_missing_pragma_expires_counterexample :
    (randomImageProxyHandler sampleRemoteDB none 0 fetchOkWebp).1
      = .stream [("Content-Type", "image/webp"),
                 ("Cache-Control", "no-cache, no-store, must-revalidate")]
                "WEBPBYTES" ∧
    (proxyHeaders (randomImageProxyHandler sampleRemoteDB none 0 fetchOkWebp).1).lookup
        "Pragma" = none ∧
    (proxyHeaders (randomImageProxyHandler sampleRemoteDB none 0 fetchOkWebp).1).lookup
        "Expires" = none := by decide

/-- Claim C4 (amended): every successful streamed response from
`GET /random-image` carries `Cache-Control: no-cache, no-store,
must-revalidate`, and no `Pragma` or `Expires` header is set. -/
theorem C4_amended_stream_cache_headers
    (db : Catalog) (tag : Option String) (k : Nat)
    (fetch : String → FetchResult) (hs : List (String × String)) (body : String)
    (h : (randomImageProxyHandler db tag k fetch).1 = .stream hs body) :
    hs.lookup "Cache-Control" = some "no-cache, no-store, must-revalidate" ∧
    hs.lookup "Pragma" = none ∧
    hs.lookup "Expires" = none := by
  rcases hc : chooseRandomImage db (queryGet tag) k with e | img
  · simp [randomImageProxyHandler, hc] at h
  · by_cases hl : hasPrefixStr img.url "/local/"
    · simp [randomImageProxyHandler, hc, hl] at h
    · rcases hf : fetch img.url with msg | ⟨code, ct, fbody⟩
      · simp [randomImageProxyHandler, hc, hl, hf] at h
      · by_cases hcode : code = 200
        · subst hcode
          simp [randomImageProxyHandler, hc, hl, hf] at h
          obtain ⟨hhs, -⟩ := h
          subst hhs
          refine ⟨?_, ?_, ?_⟩ <;> simp [List.lookup]
        · simp [randomImageProxyHandler, hc, hl, hf, hcode] at h

/-- Concrete instantiation of the amended claim C4. -/
theorem C4_amended_stream_cache_headers_witness :
    ([("Content-Type", "image/webp"),
      ("Cache-Control", "no-cache, no-store, must-revalidate")].lookup
        "Cache-Control" = some "no-cache, no-store, must-revalidate") ∧
    ([("Content-Type", "image/webp"),
      ("Cache-Control", "no-cache, no-store, must-revalidate")].lookup
        "Pragma" = none) ∧
    ([("Content-Type", "image/webp"),
      ("Cache-Control", "no-cache, no-store, must-revalidate")].lookup
        "Expires" = none) :=
  C4_amended_stream_cache_headers sampleRemoteDB none 0 fetchOkWebp
    [("Content-Type", "image/webp"),
     ("Cache-Control", "no-cache, no-store, must-revalidate")]
    "WEBPBYTES" rfl

/-- Claim C5: for remote-origin delivery, a transport failure (connection
error or timeout) yields status 500 with a fixed message, and a non-200
upstream status yields status 502 with a fixed message naming the code —
the upstream response body never appears in the caller's response. -/
theorem C5_remote_failure_mapping
    (db : Catalog) (tag : Option String) (k : Nat)
    (fetch : String → FetchResult) (img : Image)
    (hok : chooseRandomImage db (queryGet tag) k = .ok img)
    (hrem : hasPrefixStr img.url "/local/" = false) :
    (∀ msg, fetch img.url = .connError msg →
      (randomImageProxyHandler db tag k fetch).1
        = .httpError 500 "无法获取图床图片") ∧
    (∀ code ct body, fetch img.url = .response code ct body → code ≠ 200 →
      (randomImageProxyHandler db tag k fetch).1
        = .httpError 502 ("图床返回错误: " ++ toString code)) := by
  constructor
  · intro msg hmsg
    simp [randomImageProxyHandler, hok, hrem, hmsg]
  · intro code ct body hresp hcode
    simp [randomImageProxyHandler, hok, hrem, hresp, hcode]

/-- Concrete instantiation of claim C5: a transport failure maps to 500 and
an upstream 404 maps to 502 with the fixed message, not the upstream HTML
body. -/
theorem C5_remote_failure_mapping_witness :
    (randomImageProxyHandler sampleRemoteDB none 0 fetchConnError).1
      = .httpError 500 "无法获取图床图片" ∧
    (randomImageProxyHandler sampleRemoteDB none 0 fetchUpstream404).1
      = .httpError 502 ("图床返回错误: " ++ toString (404 : Nat)) :=
  ⟨(C5_remote_failure_mapping sampleRemoteDB none 0 fetchConnError
      sampleRemoteImage rfl rfl).1 "dial tcp: i/o timeout" rfl,
   (C5_remote_failure_mapping sampleRemoteDB none 0 fetchUpstream404
      sampleRemoteImage rfl rfl).2 404 "text/html" "NOPE" rfl (by decide)⟩

/-- Claim C6: `listDistinctTags` returns an alphabetically sorted,
duplicate-free sequence whose members are exactly the tags occurring on
some record of the catalog. -/
theorem C6_listDistinctTags_sorted_nodup_union :
    ∀ images : List Image,
      List.Sorted tagOrder (listDistinctTags images) ∧
      (listDistinctTags images).Nodup ∧
      ∀ t : String, t ∈ listDistinctTags images ↔ ∃ img ∈ images, t ∈ img.tags := by
  intro images
  refine ⟨List.sorted_insertionSort tagOrder _, ?_, ?_⟩
  · exact ((List.perm_insertionSort tagOrder _).nodup_iff).mpr (List.nodup_dedup _)
  · intro t
    unfold listDistinctTags
    rw [List.mem_insertionSort, List.mem_dedup, List.mem_flatMap]

/-- Claim C7 counterexample: two local-store records with different file
extensions are delivered with different content types (`image/png` versus
`image/webp`, chosen by the file server from the file, not by the handler),
so the local branch has no fixed default `Content-Type`. -/
theorem C7_local_content_type_counterexample :
    (randomImageProxyHandler ⟨[⟨1, "/local/a.png", []⟩], none⟩ none 0
        fetchOkWebp).1 = .serveFile "/app/local_images/a.png" ∧
    (randomImageProxyHandler ⟨[⟨2, "/local/b.webp", []⟩], none⟩ none 0
        fetchOkWebp).1 = .serveFile "/app/local_images/b.webp" ∧
    serveFileContentType "/app/local_images/a.png" = "image/png" ∧
    serveFileContentType "/app/local_images/b.webp" = "image/webp" ∧
    serveFileContentType "/app/local_images/a.png"
      ≠ serveFileContentType "/app/local_images/b.webp" := by decide

/-- Claim C7 (amended): on a successful remote stream the `Content-Type`
header equals the upstream response's content type; on a local record the
handler sets no content type itself — it delegates to `http.ServeFile` on
the resolved path, whose content type is derived from the served file. -/
theorem C7_amended_content_type
    (db : Catalog) (tag : Option String) (k : Nat)
    (fetch : String → FetchResult) (img : Image)
    (hok : chooseRandomImage db (queryGet tag) k = .ok img) :
    (∀ ct body, hasPrefixStr img.url "/local/" = false →
      fetch img.url = .response 200 ct body →
      (proxyHeaders (randomImageProxyHandler db tag k fetch).1).lookup
        "Content-Type" = some ct) ∧
    (hasPrefixStr img.url "/local/" = true →
      (randomImageProxyHandler db tag k fetch).1
        = .serveFile (localResolvedPath img.url)) := by
  constructor
  · intro ct body hrem hresp
    simp [randomImageProxyHandler, hok, hrem, hresp, proxyHeaders, List.lookup]
  · intro hloc
    simp [randomImageProxyHandler, hok, hloc]

/-- Concrete instantiation of the amended claim C7: the streamed response
mirrors the upstream `image/webp`, and a local record is delegated to the
file server at its resolved path. -/
theorem C7_amended_content_type_witness :
    (proxyHeaders (randomImageProxyHandler sampleRemoteDB none 0 fetchOkWebp).1).lookup
      "Content-Type" = some "image/webp" ∧
    (randomImageProxyHandler ⟨[⟨1, "/local/a.png", []⟩], none⟩ none 0 fetchOkWebp).1
      = .serveFile (localResolvedPath "/local/a.png") :=
  ⟨(C7_amended_content_type sampleRemoteDB none 0 fetchOkWebp
      sampleRemoteImage rfl).1 "image/webp" "WEBPBYTES" rfl rfl,
   (C7_amended_content_type ⟨[⟨1, "/local/a.png", []⟩], none⟩ none 0 fetchOkWebp
      ⟨1, "/local/a.png", []⟩ rfl).2 rfl⟩

/-- Claim C8: per request, the streaming handler performs exactly one
catalog random pick and at most one outbound GET, every outbound GET uses
the fixed 15-second client timeout, and the JSON handler performs exactly
one pick and no outbound GET — no failure class triggers a retry or a
second pick. -/
theorem C8_single_pick_single_fetch
    (db : Catalog) (tag : Option String) (k : Nat)
    (fetch : String → FetchResult) :
    (randomImageProxyHandler db tag k fetch).2.countP isDbPick = 1 ∧
    (randomImageProxyHandler db tag k fetch).2.countP isOutboundGet ≤ 1 ∧
    (∀ u secs, Effect.outboundGet u secs ∈ (randomImageProxyHandler db tag k fetch).2 →
      secs = httpClientTimeoutSeconds) ∧
    (randomImageAPIHandler db tag k).2.countP isDbPick = 1 ∧
    (randomImageAPIHandler db tag k).2.countP isOutboundGet = 0 := by
  have hapi : (randomImageAPIHandler db tag k).2.countP isDbPick = 1 ∧
      (randomImageAPIHandler db tag k).2.countP isOutboundGet = 0 := by
    rcases hc : chooseRandomImage db (queryGet tag) k with e | img <;>
      simp [randomImageAPIHandler, hc, isDbPick, isOutboundGet]
  refine ⟨?_, ?_, ?_, hapi.1, hapi.2⟩ <;>
  · rcases hc : chooseRandomImage db (queryGet tag) k with e | img
    · simp [randomImageProxyHandler, hc, isDbPick, isOutboundGet]
    · by_cases hl : hasPrefixStr img.url "/local/"
      · simp [randomImageProxyHandler, hc, hl, isDbPick, isOutboundGet]
      · rcases hf : fetch img.url with msg | ⟨code, ct, fbody⟩
        · simp [randomImageProxyHandler, hc, hl, hf, isDbPick, isOutboundGet]
        · by_cases hcode : code = 200 <;>
            simp [randomImageProxyHandler, hc, hl, hf, hcode, isDbPick, isOutboundGet]

/-- Concrete instantiation of claim C8 on a remote record with an upstream
failure: one pick, one GET with the 15-second timeout, no retry. -/
theorem C8_single_pick_single_fetch_witness :
    (randomImageProxyHandler sampleRemoteDB none 0 fetchUpstream404).2.countP
      isDbPick = 1 ∧
    (randomImageProxyHandler sampleRemoteDB none 0 fetchUpstream404).2.countP
      isOutboundGet ≤ 1 ∧
    ((randomImageProxyHandler sampleRemoteDB none 0 fetchUpstream404).2
      = [.dbPick "", .outboundGet "https://x/a.webp" 15]) ∧
    (randomImageAPIHandler sampleRemoteDB none 0).2.countP isDbPick = 1 ∧
    (randomImageAPIHandler sampleRemoteDB none 0).2.countP isOutboundGet = 0 :=
  ⟨(C8_single_pick_single_fetch sampleRemoteDB none 0 fetchUpstream404).1,
   (C8_single_pick_single_fetch sampleRemoteDB none 0 fetchUpstream404).2.1,
   by decide,
   (C8_single_pick_single_fetch sampleRemoteDB none 0 fetchUpstream404).2.2.2.1,
   (C8_single_pick_single_fetch sampleRemoteDB none 0 fetchUpstream404).2.2.2.2⟩

/-- Claim C9: a present-but-empty `tag` query parameter behaves exactly as
an absent one — both handlers produce identical results, the candidate set
is the whole catalog, and a healthy non-empty catalog always yields a
record (never a 404 for lack of an empty tag). -/
theorem C9_empty_tag_same_as_absent
    (db : Catalog) (k : Nat) (fetch : String → FetchResult) :
    randomImageProxyHandler db (some "") k fetch
      = randomImageProxyHandler db none k fetch ∧
    randomImageAPIHandler db (some "") k = randomImageAPIHandler db none k ∧
    candidates db.images (queryGet (some "")) = db.images ∧
    (db.storageFailure = none → db.images ≠ [] →
      ∃ img, chooseRandomImage db (queryGet (some "")) k = .ok img) := by
  refine ⟨rfl, rfl, by simp [candidates, queryGet], ?_⟩
  intro hsf hne
  have hc : candidates db.images (queryGet (some "")) = db.images := by
    simp [candidates, queryGet]
  exact chooseRandomImage_ok_of_ne_nil hsf (by rw [hc]; exact hne) k

/-- Concrete instantiation of claim C9 on a one-record catalog. -/
theorem C9_empty_tag_same_as_absent_witness :
    randomImageProxyHandler sampleRemoteDB (some "") 0 fetchOkWebp
      = randomImageProxyHandler sampleRemoteDB none 0 fetchOkWebp ∧
    randomImageAPIHandler sampleRemoteDB (some "") 0
      = randomImageAPIHandler sampleRemoteDB none 0 ∧
    candidates sampleRemoteDB.images (queryGet (some "")) = sampleRemoteDB.images ∧
    (∃ img, chooseRandomImage sampleRemoteDB (queryGet (some "")) 0 = .ok img) :=
  ⟨(C9_empty_tag_same_as_absent sampleRemoteDB 0 fetchOkWebp).1,
   (C9_empty_tag_same_as_absent sampleRemoteDB 0 fetchOkWebp).2.1,
   (C9_empty_tag_same_as_absent sampleRemoteDB 0 fetchOkWebp).2.2.1,
   (C9_empty_tag_same_as_absent sampleRemoteDB 0 fetchOkWebp).2.2.2 rfl
     (by decide)⟩

/-- All-empty tag sets contribute nothing to the tag union. -/
theorem flatMap_tags_nil {images : List Image}
    (h : ∀ img ∈ images, img.tags = []) :
    images.flatMap Image.tags = [] := by
  induction images with
  | nil => rfl
  | cons a l ih =>
    rw [List.flatMap_cons, h a (List.mem_cons_self a l),
        ih fun img hm => h img (List.mem_cons_of_mem a hm)]
    rfl

/-- Claim C10: when no record contributes a tag (empty catalog or all tag
sets empty), `GET /api/tags` answers 200 with the JSON body `null` — the
accumulated Go slice stays `nil` — and not the empty array `[]`. -/
theorem C10_tags_null_body
    (db : Catalog) (hsf : db.storageFailure = none)
    (h : ∀ img ∈ db.images, img.tags = []) :
    tagsAPIHandler db =
      { status := 200,
        headers := [("Content-Type", "application/json; charset=utf-8")],
        body := "null" } ∧
    ("null" : String) ≠ "[]" := by
  refine ⟨?_, by decide⟩
  have h1 : db.images.flatMap Image.tags = [] := flatMap_tags_nil h
  simp [tagsAPIHandler, hsf, listDistinctTags, h1, jsonStringSlice]

/-- Concrete instantiation of claim C10 on a catalog whose only record has
no tags. -/
theorem C10_tags_null_body_witness :
    tagsAPIHandler ⟨[⟨1, "https://x/a.webp", []⟩], none⟩ =
      { status := 200,
        headers := [("Content-Type", "application/json; charset=utf-8")],
        body := "null" } ∧
    ("null" : String) ≠ "[]" :=
  C10_tags_null_body ⟨[⟨1, "https://x/a.webp", []⟩], none⟩ rfl (by decide)

end RangPic
